import Mathlib

/-!
Shallow embedding of the interplanetary N-body simulator (src/src/main.rs).

The program is a toy gravitational simulator: a vector of bodies, a pairwise
gravity pass that mutates velocities in place (with a closeness gate and an
orbit-assist heuristic), and a per-frame position integration.  We embed the
f32 arithmetic as exact real arithmetic and the body vector as a `List`.
-/

noncomputable section

/-- The gravitational constant `G` from main.rs line 6. -/
def G : ℝ := 6.67430e-5

/-- 2D vector, embedding `nalgebra::Vector2<f32>`. -/
structure Vec2 where
  x : ℝ
  y : ℝ

namespace Vec2

/-- Componentwise addition, `a + b` on `Vector2<f32>`. -/
def add (a b : Vec2) : Vec2 := ⟨a.x + b.x, a.y + b.y⟩

/-- Componentwise subtraction, `a - b` on `Vector2<f32>`. -/
def sub (a b : Vec2) : Vec2 := ⟨a.x - b.x, a.y - b.y⟩

/-- Scalar multiplication, `v * c` on `Vector2<f32>`. -/
def smul (v : Vec2) (c : ℝ) : Vec2 := ⟨v.x * c, v.y * c⟩

/-- Scalar division, `v / c` on `Vector2<f32>`. -/
def sdiv (v : Vec2) (c : ℝ) : Vec2 := ⟨v.x / c, v.y / c⟩

/-- Componentwise negation. -/
def neg (v : Vec2) : Vec2 := ⟨-v.x, -v.y⟩

/-- `Vector2::zeros()`. -/
def zero : Vec2 := ⟨0, 0⟩

/-- `norm_squared()` of nalgebra. -/
def normSq (v : Vec2) : ℝ := v.x * v.x + v.y * v.y

/-- `norm()` of nalgebra: the Euclidean length. -/
def norm (v : Vec2) : ℝ := Real.sqrt v.normSq

/-- `normalize()` of nalgebra: divide the vector by its Euclidean length. -/
def normalize (v : Vec2) : Vec2 := ⟨v.x / v.norm, v.y / v.norm⟩

theorem ext_iff {a b : Vec2} : a = b ↔ a.x = b.x ∧ a.y = b.y := by
  cases a; cases b; simp

end Vec2

/-- Embedding of `egui::Color32` as an rgb triple (the physics treats it
opaquely). -/
structure Color32 where
  r : ℕ
  g : ℕ
  b : ℕ
deriving DecidableEq

/-- `Color32::from_rgb`. -/
def Color32.from_rgb (r g b : ℕ) : Color32 := ⟨r, g, b⟩

/-- `Color32::YELLOW`. -/
def Color32.yellow : Color32 := ⟨255, 255, 0⟩

/-- `Color32::GRAY`. -/
def Color32.gray : Color32 := ⟨160, 160, 160⟩

/-- One simulated body, embedding `struct CelestialBody` from main.rs. -/
structure CelestialBody where
  pos : Vec2
  vel : Vec2
  mass : ℝ
  radius : ℝ
  color : Color32

namespace CelestialBody

/-- `CelestialBody::new`: zero velocity, radius `sqrt(mass / π) / 2`. -/
def new (pos : Vec2) (mass : ℝ) (color : Color32) : CelestialBody :=
  { pos := pos
    vel := Vec2.zero
    mass := mass
    radius := Real.sqrt (mass / Real.pi) / 2
    color := color }

/-- `CelestialBody::apply_gravity` (main.rs lines 37–53): mutates only
`self.vel`; `other` is read-only.  Gate on `dist_sq > (r_self + r_other)²`,
then inverse-square force, then the orbit-assist tangential kick when
`dist < 150` and `other.mass > self.mass * 5`. -/
def apply_gravity (self other : CelestialBody) : CelestialBody :=
  let dir := other.pos.sub self.pos
  let dist_sq := dir.normSq
  let dist := Real.sqrt dist_sq
  if dist_sq > (self.radius + other.radius) ^ 2 then
    let force_mag := G * self.mass * other.mass / dist_sq
    let force := dir.normalize.smul force_mag
    let self1 := { self with vel := self.vel.add (force.sdiv self.mass) }
    if dist < 150 ∧ other.mass > self.mass * 5 then
      let tangential := (Vec2.mk (-dir.y) dir.x).normalize
      { self1 with vel := self1.vel.add (tangential.smul 0.05) }
    else
      self1
  else
    self

/-- `CelestialBody::update` (main.rs lines 54–56): `pos += vel * dt`. -/
def update (b : CelestialBody) (dt : ℝ) : CelestialBody :=
  { b with pos := b.pos.add (b.vel.smul dt) }

/-- The fields of a body that `apply_gravity` never writes and that the
pairwise pass must read as a pre-step snapshot: position, mass, radius,
color. -/
def statics (b : CelestialBody) : Vec2 × ℝ × ℝ × Color32 :=
  (b.pos, b.mass, b.radius, b.color)

end CelestialBody

/-- The inverse-square force vector computed inside the gated branch of
`apply_gravity`: `normalize(dir) * (G * m_self * m_other / dist_sq)`. -/
def forceOn (self other : CelestialBody) : Vec2 :=
  let dir := other.pos.sub self.pos
  let dist_sq := dir.normSq
  dir.normalize.smul (G * self.mass * other.mass / dist_sq)

/-- The orbit-assist tangential unit vector of `apply_gravity`:
`normalize((-dir.y, dir.x))` for `dir = other.pos - self.pos`. -/
def tangentialOf (self other : CelestialBody) : Vec2 :=
  let dir := other.pos.sub self.pos
  (Vec2.mk (-dir.y) dir.x).normalize

/-- One iteration of the inner pairwise loop (main.rs lines 129–137): skip
`i == j`, otherwise `bodies[i].apply_gravity(&bodies[j])`, reading `bodies[j]`
live (the `unsafe` aliasing in the source). -/
def pairStep (i : ℕ) (bs : List CelestialBody) (j : ℕ) : List CelestialBody :=
  if i = j then bs
  else
    match bs[i]?, bs[j]? with
    | some bi, some bj => bs.set i (bi.apply_gravity bj)
    | _, _ => bs

/-- The full pairwise gravity pass of one frame (main.rs lines 129–137):
for `i` in `0..len`, for `j` in `0..len`, apply `pairStep`. -/
def gravityPass (bodies : List CelestialBody) : List CelestialBody :=
  (List.range bodies.length).foldl
    (fun bs i => (List.range bs.length).foldl (pairStep i) bs) bodies

/-- Snapshot variant of `pairStep`: body `j` is read from the pre-step list
`orig` instead of the live list. -/
def pairStepSnap (orig : List CelestialBody) (i : ℕ) (bs : List CelestialBody)
    (j : ℕ) : List CelestialBody :=
  if i = j then bs
  else
    match bs[i]?, orig[j]? with
    | some bi, some bj => bs.set i (bi.apply_gravity bj)
    | _, _ => bs

/-- Snapshot variant of the pairwise pass: all reads of body `j`'s position,
mass and radius come from the state at the start of the step. -/
def gravityPassSnap (bodies : List CelestialBody) : List CelestialBody :=
  (List.range bodies.length).foldl
    (fun bs i => (List.range bs.length).foldl (pairStepSnap bodies i) bs) bodies

/-- One physics step of the frame (main.rs lines 128–148): the full pairwise
pass, then `body.update(dt)` for every body. -/
def step (bodies : List CelestialBody) (dt : ℝ) : List CelestialBody :=
  (gravityPass bodies).map (fun b => b.update dt)

/-- `rng.random_range(lo..hi)` for a raw uniform draw `t ∈ [0, 1)`. -/
def randRange (t lo hi : ℝ) : ℝ := lo + t * (hi - lo)

/-- A stream of raw random draws, abstracting the process-wide generator
`rand::rng()`. -/
def RngStream : Type := ℕ → ℝ

/-- The "Sun" body of the dead initial setup (main.rs lines 69–73). -/
def sunBody : CelestialBody :=
  CelestialBody.new ⟨400, 300⟩ 10000 Color32.yellow

/-- The "Earth" body of the dead initial setup (main.rs lines 75–80), after
the `bodies[1].vel.y = 80.0` write. -/
def earthBody : CelestialBody :=
  let e := CelestialBody.new ⟨500, 300⟩ 100 (Color32.from_rgb 0 128 255)
  { e with vel := { e.vel with y := 80 } }

/-- One asteroid of the seeded ring (main.rs lines 86–101), given the four
raw draws for angle, distance, mass and speed. -/
def mkAsteroid (angle distance mass speed : ℝ) : CelestialBody :=
  let pos := Vec2.mk (400 + distance * Real.cos angle)
    (300 + distance * Real.sin angle)
  let asteroid := CelestialBody.new pos mass Color32.gray
  let to_center := (Vec2.mk 400 300).sub pos
  let tangential := (Vec2.mk (-to_center.y) to_center.x).normalize
  { asteroid with vel := tangential.smul speed }

/-- The 200-asteroid ring built by `Default::default` (main.rs lines 83–102);
asteroid `k` consumes draws `4k .. 4k+3` of the stream, mapped through the
source's `random_range` bounds. -/
def asteroidRing (rng : RngStream) : List CelestialBody :=
  (List.range 200).map fun k =>
    mkAsteroid (randRange (rng (4 * k)) 0 (2 * Real.pi))
      (randRange (rng (4 * k + 1)) 150 350)
      (randRange (rng (4 * k + 2)) 1 5)
      (randRange (rng (4 * k + 3)) 10 30)

/-- `InterplanetarySimulation::default`'s body population (main.rs lines
66–103): the Sun/Earth pair is built first, then the `bodies` binding is
shadowed by a fresh vector holding only the asteroid ring. -/
def defaultBodies (rng : RngStream) : List CelestialBody :=
  let bodies := [sunBody, earthBody]
  let bodies := asteroidRing rng
  bodies

/-- Embedding of `struct InterplanetarySimulation`. -/
structure InterplanetarySimulation where
  bodies : List CelestialBody
  camera_pos : Vec2
  zoom : ℝ

/-- `InterplanetarySimulation::default` (main.rs lines 65–109). -/
def defaultSim (rng : RngStream) : InterplanetarySimulation :=
  { bodies := defaultBodies rng
    camera_pos := ⟨400, 300⟩
    zoom := 1 }

/-- The "Add Planet" body (main.rs lines 160–170): random position, mass in
[1500, 2200), random color; draws are taken from the stream starting at
index 800 (after the 800 a reset would consume). -/
def addPlanetBody (rng : RngStream) : CelestialBody :=
  CelestialBody.new
    (Vec2.mk (randRange (rng 800) 0 800) (randRange (rng 801) 0 600))
    (randRange (rng 802) 1500 2200)
    (Color32.from_rgb (Int.toNat ⌊randRange (rng 803) 0 255⌋)
      (Int.toNat ⌊randRange (rng 804) 0 255⌋)
      (Int.toNat ⌊randRange (rng 805) 0 255⌋))

/-- `self.bodies.push(CelestialBody::new(pos, mass, color))` — the store's
add-body operation (main.rs line 170). -/
def addBody (bodies : List CelestialBody) (pos : Vec2) (mass : ℝ)
    (color : Color32) : List CelestialBody :=
  bodies ++ [CelestialBody.new pos mass color]

/-- Per-frame UI input consumed by `App::update`. -/
structure FrameInput where
  pointer_down : Bool
  pointer_delta : Vec2
  scroll_delta : ℝ
  dt : ℝ
  reset_clicked : Bool
  add_clicked : Bool

/-- `App::update for InterplanetarySimulation` (main.rs lines 112–176),
restricted to its state mutations: camera pan, zoom, the physics step, and
the "Reset" / "Add Planet" buttons.  The random stream is consulted only by
the two button branches. -/
def frame (sim : InterplanetarySimulation) (inp : FrameInput)
    (rng : RngStream) : InterplanetarySimulation :=
  let camera_pos :=
    if inp.pointer_down then sim.camera_pos.sub inp.pointer_delta
    else sim.camera_pos
  let zoom := sim.zoom * max 0.1 (1 + inp.scroll_delta / 200)
  let bodies := step sim.bodies inp.dt
  let sim1 : InterplanetarySimulation :=
    { bodies := bodies, camera_pos := camera_pos, zoom := zoom }
  let sim2 := if inp.reset_clicked then defaultSim rng else sim1
  if inp.add_clicked then
    { sim2 with bodies := sim2.bodies ++ [addPlanetBody rng] }
  else sim2

/-! ## Branch characterizations of `apply_gravity` -/

/-- When the closeness gate test fails (`dist_sq ≤ (r_i + r_j)²`), the pair
is skipped entirely and `self` is returned untouched. -/
theorem apply_gravity_skip (i j : CelestialBody)
    (h : ¬ (j.pos.sub i.pos).normSq > (i.radius + j.radius) ^ 2) :
    i.apply_gravity j = i := by
  unfold CelestialBody.apply_gravity
  simp only [if_neg h]

/-- When the gate passes but the orbit-assist condition fails, the body
receives exactly the gravitational increment `force / mass`. -/
theorem apply_gravity_nokick (i j : CelestialBody)
    (hgate : (j.pos.sub i.pos).normSq > (i.radius + j.radius) ^ 2)
    (hno : ¬ (Real.sqrt (j.pos.sub i.pos).normSq < 150 ∧
      j.mass > i.mass * 5)) :
    i.apply_gravity j = { i with vel := i.vel.add ((forceOn i j).sdiv i.mass) } := by
  unfold CelestialBody.apply_gravity forceOn
  simp only [if_pos hgate, if_neg hno]

/-- When the gate passes and the orbit-assist condition holds, the body
receives the gravitational increment plus the `0.05`-scaled tangential kick. -/
theorem apply_gravity_kick (i j : CelestialBody)
    (hgate : (j.pos.sub i.pos).normSq > (i.radius + j.radius) ^ 2)
    (hyes : Real.sqrt (j.pos.sub i.pos).normSq < 150 ∧ j.mass > i.mass * 5) :
    i.apply_gravity j =
      { i with vel := (i.vel.add ((forceOn i j).sdiv i.mass)).add ((tangentialOf i j).smul 0.05) } := by
  unfold CelestialBody.apply_gravity forceOn tangentialOf
  simp only [if_pos hgate, if_pos hyes]

/-- In every branch, `apply_gravity` leaves position, mass, radius and color
of `self` unchanged. -/
theorem apply_gravity_statics (i j : CelestialBody) :
    (i.apply_gravity j).statics = i.statics := by
  by_cases hgate : (j.pos.sub i.pos).normSq > (i.radius + j.radius) ^ 2
  · by_cases hyes : Real.sqrt (j.pos.sub i.pos).normSq < 150 ∧
      j.mass > i.mass * 5
    · rw [apply_gravity_kick i j hgate hyes]; rfl
    · rw [apply_gravity_nokick i j hgate hyes]; rfl
  · rw [apply_gravity_skip i j hgate]

/-- `apply_gravity` reads from `other` only its position, mass and radius:
two `other` bodies agreeing on those produce the same result. -/
theorem apply_gravity_congr (i j j' : CelestialBody) (hp : j.pos = j'.pos)
    (hm : j.mass = j'.mass) (hr : j.radius = j'.radius) :
    i.apply_gravity j = i.apply_gravity j' := by
  unfold CelestialBody.apply_gravity
  rw [hp, hm, hr]

/-! ## Claims C1 and C10 -/

/-- **C1**: for every ordered pair of distinct bodies with
`dist_sq ≤ (radius(i) + radius(j))²`, `apply_gravity` applies neither the
gravitational force nor the orbit-assist heuristic: body `i` is returned
unchanged, the skip holding exactly at equality and below (the source's gate
is the strict test `dist_sq > (r_i + r_j)²`). -/
theorem C1_closeness_gate_skips_pair (i j : CelestialBody)
    (h : (j.pos.sub i.pos).normSq ≤ (i.radius + j.radius) ^ 2) :
    i.apply_gravity j = i :=
  apply_gravity_skip i j (not_lt.mpr h)

/-- Witness for C1: two touching bodies (distance 2 = radius sum), the gate
holds at equality and the pair is skipped. -/
theorem C1_closeness_gate_skips_pair_witness :
    (((⟨⟨2, 0⟩, ⟨0, 0⟩, 1, 1, Color32.gray⟩ : CelestialBody).pos.sub
        (⟨⟨0, 0⟩, ⟨0, 0⟩, 1, 1, Color32.gray⟩ : CelestialBody).pos).normSq ≤
      ((⟨⟨0, 0⟩, ⟨0, 0⟩, 1, 1, Color32.gray⟩ : CelestialBody).radius +
        (⟨⟨2, 0⟩, ⟨0, 0⟩, 1, 1, Color32.gray⟩ : CelestialBody).radius) ^ 2) ∧
    (⟨⟨0, 0⟩, ⟨0, 0⟩, 1, 1, Color32.gray⟩ : CelestialBody).apply_gravity
      ⟨⟨2, 0⟩, ⟨0, 0⟩, 1, 1, Color32.gray⟩ =
      ⟨⟨0, 0⟩, ⟨0, 0⟩, 1, 1, Color32.gray⟩ := by
  refine ⟨?_, C1_closeness_gate_skips_pair _ _ ?_⟩ <;>
    norm_num [Vec2.sub, Vec2.normSq]

/-- **C10**: coincident positions give `dist_sq = 0`, which fails the strict
gate test against the positive `(r_i + r_j)²`, so the pair is skipped before
`dir.normalize()` is evaluated: `apply_gravity` never normalizes a
zero-length vector. -/
theorem C10_zero_length_normalize_unreachable (i j : CelestialBody)
    (hri : 0 < i.radius) (hrj : 0 < j.radius) (hpos : i.pos = j.pos) :
    i.apply_gravity j = i := by
  apply apply_gravity_skip
  rw [hpos]
  simp only [Vec2.sub, Vec2.normSq, sub_self, mul_zero, add_zero, not_lt]
  positivity

/-! ## Euclidean norm facts about `Vec2` -/

theorem Vec2.normSq_nonneg (v : Vec2) : 0 ≤ v.normSq := by
  have hx := mul_self_nonneg v.x
  have hy := mul_self_nonneg v.y
  unfold Vec2.normSq
  linarith

theorem Vec2.normSq_neg (v : Vec2) : v.neg.normSq = v.normSq := by
  simp [Vec2.neg, Vec2.normSq]

theorem Vec2.normalize_eq_sdiv (v : Vec2) : v.normalize = v.sdiv v.norm := rfl

theorem Vec2.sdiv_eq_smul (v : Vec2) (c : ℝ) : v.sdiv c = v.smul c⁻¹ := by
  simp [Vec2.sdiv, Vec2.smul, div_eq_mul_inv]

theorem Vec2.norm_smul (v : Vec2) (c : ℝ) :
    (v.smul c).norm = |c| * v.norm := by
  unfold Vec2.norm Vec2.smul Vec2.normSq
  rw [show v.x * c * (v.x * c) + v.y * c * (v.y * c) =
    c ^ 2 * (v.x * v.x + v.y * v.y) by ring]
  rw [Real.sqrt_mul (sq_nonneg c), Real.sqrt_sq_eq_abs]

theorem Vec2.norm_neg (v : Vec2) : v.neg.norm = v.norm := by
  unfold Vec2.norm
  rw [Vec2.normSq_neg]

theorem Vec2.norm_normalize (v : Vec2) (h : 0 < v.normSq) :
    v.normalize.norm = 1 := by
  have hn : 0 < v.norm := Real.sqrt_pos.mpr h
  rw [Vec2.normalize_eq_sdiv, Vec2.sdiv_eq_smul, Vec2.norm_smul,
    abs_of_pos (inv_pos.mpr hn), inv_mul_cancel₀ hn.ne']

theorem Vec2.normalize_neg (v : Vec2) : v.neg.normalize = v.normalize.neg := by
  simp [Vec2.normalize, Vec2.norm, Vec2.normSq, Vec2.neg, neg_mul_neg,
    neg_div]

theorem Vec2.smul_neg (v : Vec2) (c : ℝ) :
    (v.neg).smul c = (v.smul c).neg := by
  simp [Vec2.neg, Vec2.smul]

theorem Vec2.add_sub_cancel_left (a b : Vec2) : (a.add b).sub a = b := by
  simp [Vec2.add, Vec2.sub]

theorem Vec2.sub_eq_neg (a b : Vec2) : b.sub a = (a.sub b).neg := by
  simp [Vec2.sub, Vec2.neg]

theorem G_pos : 0 < G := by norm_num [G]

/-- `forceOn` is antisymmetric: `i` attracts `j` and `j` attracts `i` with
equal magnitude and opposite direction. -/
theorem Vec2.neg_neg (v : Vec2) : v.neg.neg = v := by
  simp [Vec2.neg]

theorem forceOn_antisymm (i j : CelestialBody) :
    forceOn i j = (forceOn j i).neg := by
  show (j.pos.sub i.pos).normalize.smul
      (G * i.mass * j.mass / (j.pos.sub i.pos).normSq) =
    ((i.pos.sub j.pos).normalize.smul
      (G * j.mass * i.mass / (i.pos.sub j.pos).normSq)).neg
  rw [Vec2.sub_eq_neg j.pos i.pos, Vec2.normSq_neg, Vec2.normalize_neg,
    Vec2.smul_neg, Vec2.neg_neg,
    show G * j.mass * i.mass = G * i.mass * j.mass by ring]

/-! ## Claims C2 and C3 -/

/-- Concrete body for the C2 witness. -/
def c2I : CelestialBody := ⟨⟨0, 0⟩, ⟨0, 0⟩, 2, 1, Color32.gray⟩

/-- Concrete body for the C2 witness. -/
def c2J : CelestialBody := ⟨⟨300, 400⟩, ⟨0, 0⟩, 2, 1, Color32.gray⟩

/-- **C2**: with positive masses, when neither the gate nor the heuristic
triggers, the velocity increment on `i` is `normalize(dir)` scaled by
`(G·m_i·m_j/dist_sq)/m_i`, its Euclidean magnitude equals that scalar, and
the pairwise forces are antisymmetric: equal magnitude, opposite
direction. -/
theorem C2_force_formula_and_symmetry (i j : CelestialBody)
    (hmi : 0 < i.mass) (hmj : 0 < j.mass)
    (hgate : (j.pos.sub i.pos).normSq > (i.radius + j.radius) ^ 2)
    (hno : ¬ (Real.sqrt (j.pos.sub i.pos).normSq < 150 ∧
      j.mass > i.mass * 5)) :
    (i.apply_gravity j).vel =
      i.vel.add ((j.pos.sub i.pos).normalize.smul
        (G * i.mass * j.mass / (j.pos.sub i.pos).normSq / i.mass)) ∧
    ((i.apply_gravity j).vel.sub i.vel).norm =
      G * i.mass * j.mass / (j.pos.sub i.pos).normSq / i.mass ∧
    forceOn i j = (forceOn j i).neg ∧
    (forceOn i j).norm = (forceOn j i).norm := by
  have hds : 0 < (j.pos.sub i.pos).normSq :=
    lt_of_le_of_lt (sq_nonneg _) hgate
  have hfm : 0 < G * i.mass * j.mass / (j.pos.sub i.pos).normSq :=
    div_pos (mul_pos (mul_pos G_pos hmi) hmj) hds
  have h1 : (i.apply_gravity j).vel =
      i.vel.add ((j.pos.sub i.pos).normalize.smul
        (G * i.mass * j.mass / (j.pos.sub i.pos).normSq / i.mass)) := by
    rw [apply_gravity_nokick i j hgate hno]
    show i.vel.add ((forceOn i j).sdiv i.mass) = _
    simp [forceOn, Vec2.ext_iff, Vec2.add, Vec2.sdiv, Vec2.smul,
      mul_div_assoc]
  refine ⟨h1, ?_, forceOn_antisymm i j, ?_⟩
  · rw [h1, Vec2.add_sub_cancel_left, Vec2.norm_smul,
      Vec2.norm_normalize _ hds, mul_one, abs_of_pos (div_pos hfm hmi)]
  · rw [forceOn_antisymm i j, Vec2.norm_neg]

/-- Witness for C2: masses 2 and 2 at distance 500, gate passes, heuristic
cannot trigger (equal masses), and the increment magnitude matches. -/
theorem C2_force_formula_and_symmetry_witness :
    (0 < c2I.mass ∧ 0 < c2J.mass ∧
      (c2J.pos.sub c2I.pos).normSq > (c2I.radius + c2J.radius) ^ 2 ∧
      ¬ (Real.sqrt (c2J.pos.sub c2I.pos).normSq < 150 ∧
        c2J.mass > c2I.mass * 5)) ∧
    ((c2I.apply_gravity c2J).vel.sub c2I.vel).norm =
      G * c2I.mass * c2J.mass / (c2J.pos.sub c2I.pos).normSq / c2I.mass := by
  have hmi : (0 : ℝ) < c2I.mass := by norm_num [c2I]
  have hmj : (0 : ℝ) < c2J.mass := by norm_num [c2J]
  have hgate : (c2J.pos.sub c2I.pos).normSq >
      (c2I.radius + c2J.radius) ^ 2 := by
    norm_num [c2I, c2J, Vec2.sub, Vec2.normSq]
  have hno : ¬ (Real.sqrt (c2J.pos.sub c2I.pos).normSq < 150 ∧
      c2J.mass > c2I.mass * 5) := by
    rintro ⟨-, h⟩
    norm_num [c2I, c2J] at h
  exact ⟨⟨hmi, hmj, hgate, hno⟩,
    (C2_force_formula_and_symmetry c2I c2J hmi hmj hgate hno).2.1⟩

/-- Concrete body for the C3 witness. -/
def c3I : CelestialBody := ⟨⟨0, 0⟩, ⟨0, 0⟩, 1, 1, Color32.gray⟩

/-- Concrete body for the C3 witness. -/
def c3J : CelestialBody := ⟨⟨100, 0⟩, ⟨0, 0⟩, 10, 1, Color32.gray⟩

/-- **C3**: past the gate, the orbit-assist kick `0.05 · normalize((-dir.y,
dir.x))` is added to `velocity(i)` exactly when `dist < 150` and
`mass(j) > 5·mass(i)`; it changes only `i`'s velocity (position, mass and
radius stay), and it is not mirrored: the reverse pair `(j, i)` gets no kick
unless its own condition holds. -/
theorem C3_orbit_assist_characterization (i j : CelestialBody)
    (hgate : (j.pos.sub i.pos).normSq > (i.radius + j.radius) ^ 2) :
    ((Real.sqrt (j.pos.sub i.pos).normSq < 150 ∧ j.mass > i.mass * 5) →
      (i.apply_gravity j).vel =
        (i.vel.add ((forceOn i j).sdiv i.mass)).add ((tangentialOf i j).smul 0.05)) ∧
    (¬ (Real.sqrt (j.pos.sub i.pos).normSq < 150 ∧ j.mass > i.mass * 5) →
      (i.apply_gravity j).vel = i.vel.add ((forceOn i j).sdiv i.mass)) ∧
    (i.apply_gravity j).pos = i.pos ∧
    (i.apply_gravity j).mass = i.mass ∧
    (i.apply_gravity j).radius = i.radius ∧
    (¬ (Real.sqrt (i.pos.sub j.pos).normSq < 150 ∧ i.mass > j.mass * 5) →
      (j.apply_gravity i).vel = j.vel.add ((forceOn j i).sdiv j.mass)) := by
  have hstat := apply_gravity_statics i j
  simp only [CelestialBody.statics, Prod.mk.injEq] at hstat
  have hgate' : (i.pos.sub j.pos).normSq > (j.radius + i.radius) ^ 2 := by
    rw [Vec2.sub_eq_neg j.pos i.pos, Vec2.normSq_neg, add_comm j.radius]
    exact hgate
  exact ⟨fun h => by rw [apply_gravity_kick i j hgate h],
    fun h => by rw [apply_gravity_nokick i j hgate h],
    hstat.1, hstat.2.1, hstat.2.2.1,
    fun h => by rw [apply_gravity_nokick j i hgate' h]⟩

/-- Witness for C3: mass 1 body at distance 100 from a mass 10 body — the
gate passes, `dist = 100 < 150` and `10 > 5·1`, so the kick is applied; the
reverse direction gets no kick since `1 > 5·10` fails. -/
theorem C3_orbit_assist_characterization_witness :
    ((c3J.pos.sub c3I.pos).normSq > (c3I.radius + c3J.radius) ^ 2 ∧
      (Real.sqrt (c3J.pos.sub c3I.pos).normSq < 150 ∧
        c3J.mass > c3I.mass * 5)) ∧
    (c3I.apply_gravity c3J).vel =
      (c3I.vel.add ((forceOn c3I c3J).sdiv c3I.mass)).add ((tangentialOf c3I c3J).smul 0.05) := by
  have hgate : (c3J.pos.sub c3I.pos).normSq >
      (c3I.radius + c3J.radius) ^ 2 := by
    norm_num [c3I, c3J, Vec2.sub, Vec2.normSq]
  have hdist : Real.sqrt (c3J.pos.sub c3I.pos).normSq < 150 := by
    have : (c3J.pos.sub c3I.pos).normSq = (100 : ℝ) ^ 2 := by
      norm_num [c3I, c3J, Vec2.sub, Vec2.normSq]
    rw [this, Real.sqrt_sq (by norm_num)]
    norm_num
  have hmass : c3J.mass > c3I.mass * 5 := by norm_num [c3I, c3J]
  exact ⟨⟨hgate, hdist, hmass⟩,
    (C3_orbit_assist_characterization c3I c3J hgate).1 ⟨hdist, hmass⟩⟩

/-! ## Claims C4, C7, C8, C9 -/

/-- **C4**: gravitational velocity increments are applied without any
factor of `dt` — the velocities produced by a step are the same for every
`dt` — while position integration does multiply by `dt`
(`pos += vel * dt` after the pass), and there is a configuration whose
step result depends on `dt`. -/
theorem C4_dt_asymmetry (bodies : List CelestialBody) (dt dt' : ℝ) (k : ℕ) :
    ((step bodies dt)[k]?).map CelestialBody.vel =
      ((step bodies dt')[k]?).map CelestialBody.vel ∧
    (step bodies dt)[k]? = ((gravityPass bodies)[k]?).map
      (fun b => { b with pos := b.pos.add (b.vel.smul dt) }) ∧
    (∃ (bs : List CelestialBody) (d d' : ℝ), step bs d ≠ step bs d') := by
  refine ⟨?_, ?_, ?_⟩
  · simp only [step, List.getElem?_map, Option.map_map]
    rfl
  · simp only [step, List.getElem?_map]
    rfl
  · refine ⟨[⟨⟨0, 0⟩, ⟨1, 0⟩, 1, 1, Color32.gray⟩], 0, 1, ?_⟩
    have h1 : gravityPass [(⟨⟨0, 0⟩, ⟨1, 0⟩, 1, 1, Color32.gray⟩ :
        CelestialBody)] = [⟨⟨0, 0⟩, ⟨1, 0⟩, 1, 1, Color32.gray⟩] := by
      simp [gravityPass, pairStep, List.range_succ]
    intro h
    simp only [step, h1, List.map, CelestialBody.update, Vec2.add, Vec2.smul,
      List.cons.injEq, CelestialBody.mk.injEq, Vec2.mk.injEq, and_true] at h
    norm_num at h

/-- **C7**: `add_body` appends exactly one body built by
`CelestialBody::new` — zero velocity, radius `sqrt(mass/π)/2` — and leaves
every existing slot of the store untouched. -/
theorem C7_add_body (bodies : List CelestialBody) (pos : Vec2) (mass : ℝ)
    (color : Color32) :
    (addBody bodies pos mass color).length = bodies.length + 1 ∧
    (addBody bodies pos mass color)[bodies.length]? =
      some (CelestialBody.new pos mass color) ∧
    (CelestialBody.new pos mass color).vel = Vec2.mk 0 0 ∧
    (CelestialBody.new pos mass color).radius =
      Real.sqrt (mass / Real.pi) / 2 ∧
    ∀ k, k ≠ bodies.length →
      (addBody bodies pos mass color)[k]? = bodies[k]? := by
  refine ⟨by simp [addBody], List.getElem?_concat_length bodies _, rfl, rfl,
    fun k hk => ?_⟩
  rcases lt_or_ge k bodies.length with h | h
  · exact List.getElem?_append_left h
  · have hgt : bodies.length < k := lt_of_le_of_ne h (Ne.symm hk)
    rw [List.getElem?_eq_none (l := bodies) h,
      List.getElem?_eq_none (by simpa [addBody] using hgt)]

/-- Witness for C7: appending to the empty store yields a singleton whose
out-of-range reads agree with the empty store. -/
theorem C7_add_body_witness :
    ((1 : ℕ) ≠ ([] : List CelestialBody).length) ∧
    (addBody [] (Vec2.mk 1 2) 4 Color32.gray).length =
      ([] : List CelestialBody).length + 1 ∧
    (addBody [] (Vec2.mk 1 2) 4 Color32.gray)[1]? =
      ([] : List CelestialBody)[1]? := by
  refine ⟨by norm_num, (C7_add_body [] (Vec2.mk 1 2) 4 Color32.gray).1,
    (C7_add_body [] (Vec2.mk 1 2) 4 Color32.gray).2.2.2.2 1 (by norm_num)⟩

/-- **C8**: the default population is exactly the 200-asteroid ring — the
dead Sun/Earth pair is discarded and absent — and a frame whose Reset
button is clicked (and Add Planet is not) leaves a store of size 200. -/
theorem C8_default_population (rng : RngStream) :
    (defaultBodies rng).length = 200 ∧
    defaultBodies rng = asteroidRing rng ∧
    sunBody ∉ defaultBodies rng ∧
    earthBody ∉ defaultBodies rng ∧
    ∀ (sim : InterplanetarySimulation) (inp : FrameInput),
      inp.reset_clicked = true → inp.add_clicked = false →
      (frame sim inp rng).bodies.length = 200 := by
  have hgray : ∀ b ∈ defaultBodies rng, b.color = Color32.gray := by
    intro b hb
    simp only [defaultBodies, asteroidRing, List.mem_map] at hb
    obtain ⟨k, -, hk⟩ := hb
    rw [← hk]
    rfl
  have hlen : (defaultBodies rng).length = 200 := by
    simp [defaultBodies, asteroidRing]
  refine ⟨hlen, rfl, fun h => ?_, fun h => ?_, fun sim inp h1 h2 => ?_⟩
  · have := hgray sunBody h
    simp [sunBody, CelestialBody.new, Color32.yellow, Color32.gray] at this
  · have := hgray earthBody h
    simp [earthBody, CelestialBody.new, Color32.from_rgb, Color32.gray]
      at this
  · simp only [frame, h1, h2, Bool.false_eq_true, if_true, if_false]
    exact hlen

/-- Witness for C8: a concrete reset frame over the constant-zero draw
stream yields a 200-body store. -/
theorem C8_default_population_witness :
    (defaultBodies (fun _ => 0)).length = 200 ∧
    (frame ⟨[], ⟨0, 0⟩, 1⟩ ⟨false, ⟨0, 0⟩, 0, 1, true, false⟩
      (fun _ => 0)).bodies.length = 200 :=
  ⟨(C8_default_population (fun _ => 0)).1,
    (C8_default_population (fun _ => 0)).2.2.2.2 ⟨[], ⟨0, 0⟩, 1⟩
      ⟨false, ⟨0, 0⟩, 0, 1, true, false⟩ rfl rfl⟩

/-- **C9**: a frame on which neither button fires is deterministic — it
never consults the random stream, and its body store is exactly
`step bodies dt` of the pre-frame store: identical states and `dt` give
identical results. -/
theorem C9_step_deterministic (sim : InterplanetarySimulation)
    (inp : FrameInput) (rng rng' : RngStream)
    (hr : inp.reset_clicked = false) (ha : inp.add_clicked = false) :
    frame sim inp rng = frame sim inp rng' ∧
    (frame sim inp rng).bodies = step sim.bodies inp.dt := by
  constructor <;> simp [frame, hr, ha]

/-- Witness for C9: a one-body simulation stepped under two different draw
streams produces the same frame. -/
theorem C9_step_deterministic_witness :
    ((⟨false, ⟨0, 0⟩, 0, 1, false, false⟩ : FrameInput).reset_clicked
        = false) ∧
    frame ⟨[⟨⟨0, 0⟩, ⟨1, 0⟩, 1, 1, Color32.gray⟩], ⟨0, 0⟩, 1⟩
        ⟨false, ⟨0, 0⟩, 0, 1, false, false⟩ (fun _ => 0) =
      frame ⟨[⟨⟨0, 0⟩, ⟨1, 0⟩, 1, 1, Color32.gray⟩], ⟨0, 0⟩, 1⟩
        ⟨false, ⟨0, 0⟩, 0, 1, false, false⟩ (fun _ => 1) :=
  ⟨rfl, (C9_step_deterministic ⟨[⟨⟨0, 0⟩, ⟨1, 0⟩, 1, 1, Color32.gray⟩],
    ⟨0, 0⟩, 1⟩ ⟨false, ⟨0, 0⟩, 0, 1, false, false⟩ (fun _ => 0)
    (fun _ => 1) rfl rfl).1⟩

/-! ## Claim C5: snapshot semantics of the pairwise pass -/

/-- Folding two step functions that agree on states satisfying an invariant
preserved by the fold yields equal results, with the invariant maintained. -/
theorem foldl_congr_inv {α β : Type _} (P : α → Prop) (f g : α → β → α)
    (hfg : ∀ a b, P a → f a b = g a b)
    (hP : ∀ a b, P a → P (f a b)) :
    ∀ (l : List β) (a : α), P a → l.foldl f a = l.foldl g a ∧ P (l.foldl f a) := by
  intro l
  induction l with
  | nil => exact fun a ha => ⟨rfl, ha⟩
  | cons x xs ih =>
    intro a ha
    have hfx := hP a x ha
    simp only [List.foldl_cons]
    exact ⟨by rw [← hfg a x ha]; exact (ih (f a x) hfx).1, (ih (f a x) hfx).2⟩

/-- Setting a slot to the value it already holds is the identity. -/
theorem set_getElem?_self {α : Type _} (l : List α) (i : ℕ) (a : α)
    (h : l[i]? = some a) : l.set i a = l := by
  apply List.ext_getElem?
  intro n
  by_cases hn : i = n
  · subst hn
    obtain ⟨hlt, -⟩ := List.getElem?_eq_some_iff.mp h
    rw [List.getElem?_set_self (by simpa using hlt)]
    exact h.symm
  · exact List.getElem?_set_ne hn

/-- `pairStep` only rewrites slot `i`'s velocity: the per-body statics
(position, mass, radius, color) of the whole list are unchanged. -/
theorem pairStep_statics (i j : ℕ) (bs : List CelestialBody) :
    (pairStep i bs j).map CelestialBody.statics =
      bs.map CelestialBody.statics := by
  unfold pairStep
  by_cases hij : i = j
  · simp [hij]
  · simp only [if_neg hij]
    rcases hbsi : bs[i]? with _ | bi
    · rfl
    · rcases hbsj : bs[j]? with _ | bj
      · rfl
      · rw [List.map_set, apply_gravity_statics]
        apply set_getElem?_self
        rw [List.getElem?_map, hbsi]
        rfl

/-- Under the statics invariant, the live read of body `j` inside the pass
agrees with the pre-step snapshot read: `pairStep` equals `pairStepSnap`. -/
theorem pairStep_eq_snap (bodies : List CelestialBody) (i j : ℕ)
    (bs : List CelestialBody)
    (hP : bs.map CelestialBody.statics = bodies.map CelestialBody.statics) :
    pairStep i bs j = pairStepSnap bodies i bs j := by
  unfold pairStep pairStepSnap
  by_cases hij : i = j
  · simp [hij]
  · simp only [if_neg hij]
    have hj : (bs[j]?).map CelestialBody.statics =
        (bodies[j]?).map CelestialBody.statics := by
      rw [← List.getElem?_map, ← List.getElem?_map, hP]
    rcases hbsi : bs[i]? with _ | bi
    · rcases hbj : bodies[j]? with _ | bj' <;>
        rcases hbsj : bs[j]? with _ | bj <;> rfl
    · rcases hbsj : bs[j]? with _ | bj <;> rw [hbsj] at hj
      · rcases hbj : bodies[j]? with _ | bj'
        · rfl
        · rw [hbj] at hj
          simp at hj
      · rcases hbj : bodies[j]? with _ | bj'
        · rw [hbj] at hj
          simp at hj
        · rw [hbj] at hj
          simp only [Option.map_some'] at hj
          have hst := Option.some.inj hj
          simp only [CelestialBody.statics, Prod.mk.injEq] at hst
          show bs.set i (bi.apply_gravity bj) = bs.set i (bi.apply_gravity bj')
          rw [apply_gravity_congr bi bj bj' hst.1 hst.2.1 hst.2.2.1]

/-- **C5**: within a step, the whole pairwise pass reads every body's
position, mass and radius as they stood at the start of the step (the live
aliased reads of the source coincide with a snapshot-based pass, since the
pass mutates only velocities); positions advance by `vel * dt` only after
the complete pass, and masses, radii, colors and the body count survive the
step unchanged. -/
theorem C5_snapshot_semantics (bodies : List CelestialBody) (dt : ℝ) :
    gravityPass bodies = gravityPassSnap bodies ∧
    (gravityPass bodies).map CelestialBody.statics =
      bodies.map CelestialBody.statics ∧
    step bodies dt = (gravityPass bodies).map (fun b => b.update dt) ∧
    (step bodies dt).map (fun b => (b.mass, b.radius, b.color)) =
      bodies.map (fun b => (b.mass, b.radius, b.color)) ∧
    (step bodies dt).length = bodies.length := by
  set P : List CelestialBody → Prop := fun bs =>
    bs.map CelestialBody.statics = bodies.map CelestialBody.statics with hPdef
  have hinner : ∀ (bs : List CelestialBody) (i : ℕ), P bs →
      (List.range bs.length).foldl (pairStep i) bs =
        (List.range bs.length).foldl (pairStepSnap bodies i) bs ∧
      P ((List.range bs.length).foldl (pairStep i) bs) := by
    intro bs i hbs
    exact foldl_congr_inv P (pairStep i) (pairStepSnap bodies i)
      (fun a b ha => pairStep_eq_snap bodies i b a ha)
      (fun a b ha => by
        show (pairStep i a b).map CelestialBody.statics =
          bodies.map CelestialBody.statics
        rw [pairStep_statics]
        exact ha)
      (List.range bs.length) bs hbs
  have houter := foldl_congr_inv P
    (fun bs i => (List.range bs.length).foldl (pairStep i) bs)
    (fun bs i => (List.range bs.length).foldl (pairStepSnap bodies i) bs)
    (fun a b ha => (hinner a b ha).1)
    (fun a b ha => (hinner a b ha).2)
    (List.range bodies.length) bodies rfl
  have hpass : gravityPass bodies = gravityPassSnap bodies := houter.1
  have hstat : (gravityPass bodies).map CelestialBody.statics =
      bodies.map CelestialBody.statics := houter.2
  have hproj : ∀ (l : List CelestialBody),
      l.map (fun b => (b.mass, b.radius, b.color)) =
        (l.map CelestialBody.statics).map Prod.snd := by
    intro l
    rw [List.map_map]
    rfl
  have hmrc : (step bodies dt).map (fun b => (b.mass, b.radius, b.color)) =
      bodies.map (fun b => (b.mass, b.radius, b.color)) := by
    rw [step, List.map_map,
      show ((fun b => (b.mass, b.radius, b.color)) ∘ fun b =>
        CelestialBody.update b dt) = fun b : CelestialBody =>
        (b.mass, b.radius, b.color) from rfl,
      hproj, hstat, ← hproj]
  refine ⟨hpass, hstat, rfl, hmrc, ?_⟩
  have := congrArg List.length hmrc
  simpa using this

/-! ## Claim C6: the spec's example scenario -/

/-- The mass-10000 body of the spec's example, built by `CelestialBody::new`
at (0, 0): its radius is `sqrt(10000/π)/2`. -/
def c6Sun : CelestialBody := CelestialBody.new ⟨0, 0⟩ 10000 Color32.yellow

/-- The mass-100 body of the spec's example at (100, 0), with velocity
(0, 80) and radius `sqrt(100/π)/2`. -/
def c6Planet : CelestialBody :=
  let p := CelestialBody.new ⟨100, 0⟩ 100 Color32.gray
  { p with vel := ⟨0, 80⟩ }

theorem c6_sqrt_10000 : Real.sqrt (10000 : ℝ) = 100 := by
  rw [show (10000 : ℝ) = 100 ^ 2 by norm_num,
    Real.sqrt_sq (by norm_num : (0 : ℝ) ≤ 100)]

theorem c6_dir : c6Planet.pos.sub c6Sun.pos = Vec2.mk 100 0 := by
  show Vec2.sub ⟨100, 0⟩ ⟨0, 0⟩ = _
  norm_num [Vec2.sub, Vec2.ext_iff]

theorem c6_normSq : (c6Planet.pos.sub c6Sun.pos).normSq = 10000 := by
  rw [c6_dir]
  norm_num [Vec2.normSq]

/-- The example's radii sum to `55/√π ≈ 31.03`, not the spec's "~62". -/
theorem c6_radii : c6Sun.radius + c6Planet.radius = 55 / Real.sqrt Real.pi := by
  show Real.sqrt (10000 / Real.pi) / 2 + Real.sqrt (100 / Real.pi) / 2 = _
  rw [Real.sqrt_div (by norm_num) Real.pi, Real.sqrt_div (by norm_num) Real.pi,
    c6_sqrt_10000, show Real.sqrt (100 : ℝ) = 10 by
      rw [show (100 : ℝ) = 10 ^ 2 by norm_num,
        Real.sqrt_sq (by norm_num : (0 : ℝ) ≤ 10)]]
  ring

/-- The closeness gate does NOT fire on the example: `10000 > 3025/π`. -/
theorem c6_gate : (c6Planet.pos.sub c6Sun.pos).normSq >
    (c6Sun.radius + c6Planet.radius) ^ 2 := by
  have hpi := Real.pi_gt_three
  rw [c6_normSq, c6_radii, div_pow, Real.sq_sqrt Real.pi_pos.le, gt_iff_lt,
    div_lt_iff Real.pi_pos]
  nlinarith

theorem c6_no_kick_sun : ¬ (Real.sqrt (c6Planet.pos.sub c6Sun.pos).normSq
    < 150 ∧ c6Planet.mass > c6Sun.mass * 5) := by
  rintro ⟨-, h⟩
  have h' : (100 : ℝ) > 10000 * 5 := h
  norm_num at h'

theorem c6_force : forceOn c6Sun c6Planet = Vec2.mk (G * 100) 0 := by
  have hns : (Vec2.mk (100 : ℝ) 0).normSq = 10000 := by norm_num [Vec2.normSq]
  have hnorm : (Vec2.mk (100 : ℝ) 0).norm = 100 := by
    rw [Vec2.norm, hns, c6_sqrt_10000]
  show (c6Planet.pos.sub c6Sun.pos).normalize.smul
    (G * (10000 : ℝ) * 100 / (c6Planet.pos.sub c6Sun.pos).normSq) = _
  rw [c6_dir, hns]
  simp only [Vec2.normalize, Vec2.smul, Vec2.ext_iff, hnorm]
  constructor <;> field_simp <;> ring

theorem c6_sun_new_vel :
    (c6Sun.apply_gravity c6Planet).vel = Vec2.mk (G * 100 / 10000) 0 := by
  rw [apply_gravity_nokick _ _ c6_gate c6_no_kick_sun, c6_force]
  show (Vec2.mk 0 0).add ((Vec2.mk (G * 100) 0).sdiv 10000) = _
  norm_num [Vec2.add, Vec2.sdiv, Vec2.ext_iff]

theorem c6_sun_vel_changes : (c6Sun.apply_gravity c6Planet).vel ≠ c6Sun.vel := by
  rw [c6_sun_new_vel]
  show _ ≠ Vec2.mk 0 0
  intro h
  rw [Vec2.ext_iff] at h
  norm_num [G] at h

theorem c6_planet_gate : (c6Sun.pos.sub c6Planet.pos).normSq >
    (c6Planet.radius + c6Sun.radius) ^ 2 := by
  rw [Vec2.sub_eq_neg c6Planet.pos c6Sun.pos, Vec2.normSq_neg,
    add_comm c6Planet.radius]
  exact c6_gate

theorem c6_planet_kick : Real.sqrt (c6Sun.pos.sub c6Planet.pos).normSq < 150
    ∧ c6Sun.mass > c6Planet.mass * 5 := by
  constructor
  · rw [Vec2.sub_eq_neg c6Planet.pos c6Sun.pos, Vec2.normSq_neg, c6_normSq,
      c6_sqrt_10000]
    norm_num
  · show (10000 : ℝ) > 100 * 5
    norm_num

theorem c6_planet_vel_changes :
    (c6Planet.apply_gravity c6Sun).vel ≠ c6Planet.vel := by
  rw [apply_gravity_kick _ _ c6_planet_gate c6_planet_kick]
  have hforce : forceOn c6Planet c6Sun = Vec2.mk (-(G * 100)) (-0) := by
    rw [forceOn_antisymm c6Planet c6Sun, c6_force]
    rfl
  have htang : tangentialOf c6Planet c6Sun = Vec2.mk 0 (-1) := by
    show (Vec2.mk (-(c6Sun.pos.sub c6Planet.pos).y)
      (c6Sun.pos.sub c6Planet.pos).x).normalize = _
    rw [show c6Sun.pos.sub c6Planet.pos = Vec2.mk (-100) 0 by
      norm_num [Vec2.sub, Vec2.ext_iff, c6Planet, c6Sun, CelestialBody.new]]
    have hns : (Vec2.mk (-(0 : ℝ)) (-100)).normSq = 10000 := by
      norm_num [Vec2.normSq]
    have hnorm : (Vec2.mk (-(0 : ℝ)) (-100)).norm = 100 := by
      rw [Vec2.norm, hns, c6_sqrt_10000]
    simp only [Vec2.normalize, Vec2.ext_iff, hnorm]
    norm_num
  rw [htang, hforce]
  show _ ≠ Vec2.mk 0 80
  intro h
  rw [Vec2.ext_iff] at h
  have hy := h.2
  norm_num [c6Planet, CelestialBody.new, Vec2.add, Vec2.smul, Vec2.sdiv]
    at hy

/-- **C6 counterexample**: at the spec's example configuration the claim is
false — the separation 100 is NOT below the radii sum (`55/√π ≈ 31.03`, the
spec's "~62" forgot the `/2` in the radius formula and even `100 < 62`
fails), so the gate does not fire, and the mass-10000 body's velocity does
change under `apply_gravity`. -/
theorem C6_counterexample :
    ¬ ((c6Planet.pos.sub c6Sun.pos).normSq ≤
      (c6Sun.radius + c6Planet.radius) ^ 2) ∧
    (c6Sun.apply_gravity c6Planet).vel ≠ c6Sun.vel :=
  ⟨not_le.mpr c6_gate, c6_sun_vel_changes⟩

/-- **C6 amended**: for the example configuration (masses 10000 and 100,
positions (0,0) and (100,0), velocities (0,0) and (0,80), radii
`sqrt(mass/π)/2`) the separation 100 EXCEEDS the radii sum `55/√π`, so the
closeness gate does not fire and a step applies gravity from this pair:
both bodies' velocities change (the lighter one also receives the
orbit-assist kick). -/
theorem C6_gate_does_not_fire :
    (c6Planet.pos.sub c6Sun.pos).normSq >
      (c6Sun.radius + c6Planet.radius) ^ 2 ∧
    (c6Sun.apply_gravity c6Planet).vel ≠ c6Sun.vel ∧
    (c6Planet.apply_gravity c6Sun).vel ≠ c6Planet.vel :=
  ⟨c6_gate, c6_sun_vel_changes, c6_planet_vel_changes⟩

/-- Witness for C10: two coincident unit-radius bodies, the pair is
skipped. -/
theorem C10_zero_length_normalize_unreachable_witness :
    (0 : ℝ) < (1 : ℝ) ∧
    (⟨⟨5, 5⟩, ⟨0, 0⟩, 1, 1, Color32.gray⟩ : CelestialBody).apply_gravity
      ⟨⟨5, 5⟩, ⟨3, 4⟩, 2, 1, Color32.yellow⟩ =
      ⟨⟨5, 5⟩, ⟨0, 0⟩, 1, 1, Color32.gray⟩ :=
  ⟨by norm_num,
    C10_zero_length_normalize_unreachable _ _ (by norm_num) (by norm_num) rfl⟩

end
